import Mathlib

/-!
Verification of the landmark-explorer backend core: the bounds-keyed TTL cache
(`server/storage.ts`), the cache-key derivation and route orchestration
(`server/routes.ts`), and the upstream clients (`server/api/wikipedia.ts`).

Timestamps are modelled as `Int` milliseconds.  The store writes
`expires: expiryTime.toString()` and reads it back with `Number(...)`; this
round-trips exactly for integer millisecond timestamps, so `expires` is kept
as `Int` here.  Geographic coordinates (IEEE doubles in the source) are
modelled as rationals; network calls are modelled by explicit oracle
arguments describing the upstream response, with `Except Unit` capturing a
thrown error.
-/

/-! ## Cache store (`server/storage.ts`, class `MemStorage`) -/

/-- One entry of the `Map<string, Cache>` backing `MemStorage`; the `Cache`
row shape comes from `shared/schema.ts` (`id`, `key`, `value`, `expires`). -/
structure CacheEntry (α : Type) where
  id : Nat
  key : String
  value : α
  expires : Int
  deriving Repr, DecidableEq

/-- The `Map<string, Cache>` state, as its list of entries in insertion
order (JS `Map` iteration order). -/
abbrev CacheState (α : Type) := List (CacheEntry α)

/-- `this.cache.get(key)`. -/
def mapGet {α : Type} : CacheState α → String → Option (CacheEntry α)
  | [], _ => none
  | x :: xs, k => if x.key = k then some x else mapGet xs k

/-- `this.cache.set(key, entry)`: replace the entry for an existing key in
place, otherwise append (JS `Map.set` semantics; keys are unique in a JS
`Map`, so at most one entry can match). -/
def mapSet {α : Type} : CacheState α → CacheEntry α → CacheState α
  | [], e => [e]
  | x :: xs, e => if x.key = e.key then e :: xs else x :: mapSet xs e

/-- `this.cache.delete(key)`. -/
def mapDelete {α : Type} : CacheState α → String → CacheState α
  | [], _ => []
  | x :: xs, k => if x.key = k then xs else x :: mapDelete xs k

/-- `MemStorage.getCachedData` (storage.ts lines 24-41): miss on no entry;
if `Number(cacheEntry.expires) < Date.now()` delete the entry and miss;
otherwise hit.  Returns the value (if any) and the possibly mutated state. -/
def getCachedData {α : Type} (st : CacheState α) (k : String) (now : Int) :
    Option α × CacheState α :=
  match mapGet st k with
  | none => (none, st)
  | some e => if e.expires < now then (none, mapDelete st k) else (some e.value, st)

/-- The one error `MemStorage.cacheData` can throw
("Expiry time must be a future timestamp."). -/
inductive CacheError
  | invalidExpiry
  deriving Repr, DecidableEq

/-- `MemStorage.cacheData` (storage.ts lines 43-60): throw if
`expiryTime <= Date.now()`, else insert `{id: size+1, key, value, expires}`. -/
def cacheData {α : Type} (st : CacheState α) (k : String) (v : α)
    (expiryTime now : Int) : Except CacheError (CacheState α) :=
  if expiryTime ≤ now then .error .invalidExpiry
  else .ok (mapSet st { id := st.length + 1, key := k, value := v, expires := expiryTime })

/-- The store state after a `cacheData` call, a thrown error leaving the
`Map` untouched (the `throw` precedes any mutation in the source). -/
def cacheDataRun {α : Type} (st : CacheState α) (k : String) (v : α)
    (expiryTime now : Int) : CacheState α :=
  match cacheData st k v expiryTime now with
  | .ok st1 => st1
  | .error _ => st

/-- `MemStorage.clearExpiredCache` (storage.ts lines 62-77): delete every
entry with `Number(entry.expires) < now` from a snapshot of the entries. -/
def clearExpiredCache {α : Type} : CacheState α → Int → CacheState α
  | [], _ => []
  | x :: xs, now =>
    if x.expires < now then clearExpiredCache xs now
    else x :: clearExpiredCache xs now

/-! ## Cache-key derivation (`server/routes.ts` line 48) -/

/-- The four bounds parsed by `boundsSchema`; doubles modelled as rationals. -/
structure BoundingBox where
  north : ℚ
  south : ℚ
  east : ℚ
  west : ℚ
  deriving Repr, DecidableEq

/-- Left-pad the fractional part to 4 digits. -/
def pad4 (m : Nat) : String :=
  if m < 10 then "000" ++ toString m
  else if m < 100 then "00" ++ toString m
  else if m < 1000 then "0" ++ toString m
  else toString m

/-- Render a nonnegative rational at 4 decimal places: the integer `n`
minimising the distance of `n / 10^4` to `y` (ties pick the larger `n`,
i.e. round half up), split into integer part and zero-padded fraction. -/
def fixedFrac (y : ℚ) : String :=
  let n : Nat := (Int.floor (y * 10000 + 1/2)).toNat
  toString (n / 10000) ++ "." ++ pad4 (n % 10000)

/-- JS `Number.prototype.toFixed(4)` for numbers in the coordinate range:
per ECMA-262, a `"-"` sign is emitted for negative input and the rounding
is applied to the absolute value. -/
def toFixed4 (x : ℚ) : String :=
  if x < 0 then "-" ++ fixedFrac (-x) else fixedFrac x

/-- The signed integer numerator of the 4-decimal value `x` rounds to under
the `toFixed` rounding rule (half away from zero on the magnitude). -/
def jsRound4 (x : ℚ) : Int :=
  if x < 0 then -(Int.floor (-x * 10000 + 1/2)) else Int.floor (x * 10000 + 1/2)

/-- The numeric value `x` rounds to at 4 decimal places. -/
def round4Value (x : ℚ) : ℚ :=
  (jsRound4 x : ℚ) / 10000

/-- routes.ts line 48:
`landmarks_${north.toFixed(4)}_${south.toFixed(4)}_${east.toFixed(4)}_${west.toFixed(4)}`. -/
def landmarksCacheKey (b : BoundingBox) : String :=
  "landmarks_" ++ toFixed4 b.north ++ "_" ++ toFixed4 b.south ++ "_" ++
    toFixed4 b.east ++ "_" ++ toFixed4 b.west

/-- Evaluation helper: `fixedFrac` once the floor value is known. -/
theorem fixedFrac_eq (y : ℚ) (n : ℤ) (h : Int.floor (y * 10000 + 1/2) = n) :
    fixedFrac y = toString (n.toNat / 10000) ++ "." ++ pad4 (n.toNat % 10000) := by
  simp only [fixedFrac]
  rw [h]

/-- Evaluation helper: `toFixed4` on a nonnegative input. -/
theorem toFixed4_of_nonneg (x : ℚ) (hx : ¬ x < 0) : toFixed4 x = fixedFrac x := by
  rw [toFixed4, if_neg hx]

/-- Evaluation helper: `toFixed4` on a negative input. -/
theorem toFixed4_of_neg (x : ℚ) (hx : x < 0) : toFixed4 x = "-" ++ fixedFrac (-x) := by
  rw [toFixed4, if_pos hx]

/-! ## Upstream clients (`server/api/wikipedia.ts`) -/

/-- One `geosearch` result row of the Wikipedia API response. -/
structure WikiGeosearchResult where
  pageid : Nat
  ns : Int
  title : String
  lat : ℚ
  lon : ℚ
  dist : ℚ
  primary : String
  deriving Repr

/-- A landmark as assembled by the backend.  `description` and `thumbnail`
are absent (`none`) until a detail fetch succeeds; an `undefined` field in
the JS object is dropped by JSON serialisation, so it is `none` here too. -/
structure Landmark where
  pageid : Nat
  title : String
  lat : ℚ
  lon : ℚ
  distance : ℚ
  description : Option String
  thumbnail : Option String
  deriving Repr

/-- wikipedia.ts lines 52-58: conversion of a geosearch row to a
`Landmark` (`distance` is `dist / 1000`, detail fields absent). -/
def toLandmark (r : WikiGeosearchResult) : Landmark :=
  { pageid := r.pageid, title := r.title, lat := r.lat, lon := r.lon,
    distance := r.dist / 1000, description := none, thumbnail := none }

/-- The thumbnail object of a landmark-details response. -/
structure WikiThumb where
  source : String
  width : Nat
  height : Nat
  deriving Repr, DecidableEq

/-- Result shape of `fetchLandmarkDetails` (`WikiLandmarkDetails` in
`types/index.ts`): `extract` and `thumbnail` are optional. -/
structure WikiLandmarkDetails where
  pageid : Nat
  title : String
  extract : Option String
  thumbnail : Option WikiThumb
  deriving Repr, DecidableEq

/-- `fetchLandmarks` (wikipedia.ts lines 10-70).  The HTTP exchange is an
oracle: `.error` a network failure, `.ok none` a response without a
`query.geosearch` field, `.ok (some rs)` a result list.  Returns the thrown
error or landmark list together with the number of upstream requests
issued; the bounds-order check throws before any request is made. -/
def fetchLandmarks (north south east west : ℚ)
    (up : Except Unit (Option (List WikiGeosearchResult))) :
    Except Unit (List Landmark) × Nat :=
  if north < south ∨ east < west then (.error (), 0)
  else
    match up with
    | .error _ => (.error (), 1)
    | .ok none => (.ok [], 1)
    | .ok (some rs) => (.ok (rs.map toLandmark), 1)

/-- routes.ts lines 60-72: merge one landmark with its detail-fetch
outcome.  On success the spread adds `description`/`thumbnail` (possibly
`undefined`); on a thrown error the landmark is returned unchanged. -/
def applyDetails (det : Nat → Except Unit WikiLandmarkDetails) (l : Landmark) : Landmark :=
  match det l.pageid with
  | .ok d => { l with description := d.extract, thumbnail := d.thumbnail.map (fun t => t.source) }
  | .error _ => l

/-- routes.ts lines 59-73: the per-landmark detail fan-out
(`Promise.all` over `landmarks.map`, order preserving). -/
def withDetails (det : Nat → Except Unit WikiLandmarkDetails)
    (lms : List Landmark) : List Landmark :=
  lms.map (applyDetails det)

/-- JS whitespace characters relevant to `String.prototype.trim`
(the ASCII subset; the model does not distinguish exotic Unicode spaces). -/
def jsWhitespace (c : Char) : Bool :=
  c = ' ' ∨ c = '\t' ∨ c = '\n' ∨ c = '\r'

/-- `String.prototype.trim`: strip leading and trailing whitespace. -/
def jsTrim (s : String) : String :=
  String.mk (((s.data.dropWhile jsWhitespace).reverse.dropWhile jsWhitespace).reverse)

/-- A `query.search` hit (only its `pageid` is consumed by the source). -/
structure WikiSearchHit where
  pageid : Nat
  deriving Repr, DecidableEq

/-- The coordinate pair of a `prop=coordinates` page. -/
structure WikiCoord where
  lat : ℚ
  lon : ℚ
  deriving Repr

/-- `searchWikipedia` (wikipedia.ts lines 115-177).  Throws on a blank
query (`!query || query.trim().length === 0`); otherwise performs the text
search (`searchResp` oracle) and, for the first hit, the coordinate lookup
(`coordResp` oracle, `.ok none` meaning no resolvable coordinates).
Returns at most one synthesised geosearch row. -/
def searchWikipedia (q : String) (searchResp : Except Unit (List WikiSearchHit))
    (coordResp : Nat → Except Unit (Option (WikiCoord × String))) :
    Except Unit (List WikiGeosearchResult) :=
  if q = "" ∨ (jsTrim q).length = 0 then .error ()
  else
    match searchResp with
    | .error _ => .error ()
    | .ok [] => .ok []
    | .ok (h :: _) =>
      match coordResp h.pageid with
      | .error _ => .error ()
      | .ok none => .ok []
      | .ok (some (c, title)) =>
        .ok [{ pageid := h.pageid, ns := 0, title := title, lat := c.lat,
               lon := c.lon, dist := 0, primary := "true" }]

/-! ## Route orchestration (`server/routes.ts`) -/

/-- `boundsSchema` (routes.ts lines 15-20): range checks only — the schema
does not compare north against south or east against west. -/
def validBounds (n s e w : ℚ) : Prop :=
  -90 ≤ n ∧ n ≤ 90 ∧ -90 ≤ s ∧ s ≤ 90 ∧ -180 ≤ e ∧ e ≤ 180 ∧ -180 ≤ w ∧ w ≤ 180

instance (n s e w : ℚ) : Decidable (validBounds n s e w) := by
  unfold validBounds; infer_instance

/-- `CACHE_EXPIRY_TIME` (routes.ts line 10): 15 minutes in milliseconds. -/
def cacheExpiryTime : Int := 1000 * 60 * 15

/-- Observable outcome of one `GET /api/landmarks` request: HTTP status,
JSON body (for 200 responses), resulting cache state, and the number of
upstream (Wikipedia) requests issued. -/
structure LandmarksOutcome where
  status : Nat
  body : Option (List Landmark)
  state : CacheState (List Landmark)
  upstreamCalls : Nat

/-- The `/api/landmarks` handler (routes.ts lines 37-83).  A `ZodError`
from `boundsSchema.parse` and any error thrown by `fetchLandmarks` are both
caught by the handler's single `catch`, which answers 500.  On a cache hit
(any non-null value, even an empty list) the cached value is returned with
no upstream call; otherwise the landmark list is fetched, details merged
with per-item fault isolation, and the result cached for 15 minutes. -/
def landmarksRoute (n s e w : ℚ) (st : CacheState (List Landmark)) (now : Int)
    (geo : Except Unit (Option (List WikiGeosearchResult)))
    (det : Nat → Except Unit WikiLandmarkDetails) : LandmarksOutcome :=
  if ¬ validBounds n s e w then ⟨500, none, st, 0⟩
  else
    match getCachedData st (landmarksCacheKey ⟨n, s, e, w⟩) now with
    | (some v, st1) => ⟨200, some v, st1, 0⟩
    | (none, st1) =>
      match fetchLandmarks n s e w geo with
      | (.error _, c) => ⟨500, none, st1, c⟩
      | (.ok lms, c) =>
        match cacheData st1 (landmarksCacheKey ⟨n, s, e, w⟩) (withDetails det lms)
            (now + cacheExpiryTime) now with
        | .error _ => ⟨500, none, st1, c + lms.length⟩
        | .ok st2 => ⟨200, some (withDetails det lms), st2, c + lms.length⟩

/-- The geocode response body (`{lat, lon, display_name}`). -/
structure GeocodeBody where
  lat : ℚ
  lon : ℚ
  display_name : String
  deriving Repr

/-- One Nominatim hit, with `lat`/`lon` already through `parseFloat`. -/
structure NominatimHit where
  lat : ℚ
  lon : ℚ
  display_name : String
  deriving Repr

/-- Observable outcome of one `GET /api/geocode` request: HTTP status,
body for 200 responses, and whether the secondary (Nominatim) source was
consulted. -/
structure GeocodeOutcome where
  status : Nat
  body : Option GeocodeBody
  secondaryCalled : Bool

/-- The `/api/geocode` handler (routes.ts lines 86-132) given the outcome
of `searchWikipedia` (`primary`) and of the Nominatim request
(`secondary`).  A `querySchema` failure (`q` missing or empty) throws and
is answered 500 by the outer `catch`; a thrown primary search is swallowed
and falls through to Nominatim; an empty Nominatim list answers 404. -/
def geocodeRoute (q : String) (primary : Except Unit (List WikiGeosearchResult))
    (secondary : Except Unit (List NominatimHit)) : GeocodeOutcome :=
  if q.length < 1 then ⟨500, none, false⟩
  else
    match primary with
    | .ok (r :: _) => ⟨200, some ⟨r.lat, r.lon, r.title⟩, false⟩
    | _ =>
      match secondary with
      | .error _ => ⟨500, none, true⟩
      | .ok [] => ⟨404, none, true⟩
      | .ok (h :: _) => ⟨200, some ⟨h.lat, h.lon, h.display_name⟩, true⟩

/-- The `/api/geocode` handler with the primary search expanded into
`searchWikipedia` and its two oracles. -/
def geocodeRouteFull (q : String) (searchResp : Except Unit (List WikiSearchHit))
    (coordResp : Nat → Except Unit (Option (WikiCoord × String)))
    (secondary : Except Unit (List NominatimHit)) : GeocodeOutcome :=
  geocodeRoute q (searchWikipedia q searchResp coordResp) secondary

/-! ## Geo utility and search radius (`server/api/wikipedia.ts`),
over the reals -/

/-- wikipedia.ts lines 193-195. -/
noncomputable def deg2rad (deg : ℝ) : ℝ :=
  deg * (Real.pi / 180)

/-- JS `Math.atan2` on real arguments (signed zeros and NaN, which cannot
occur for the nonnegative finite arguments used here, are not modelled). -/
noncomputable def atan2 (y x : ℝ) : ℝ :=
  if 0 < x then Real.arctan (y / x)
  else if x < 0 then
    (if 0 ≤ y then Real.arctan (y / x) + Real.pi else Real.arctan (y / x) - Real.pi)
  else
    (if 0 < y then Real.pi / 2 else if y < 0 then -(Real.pi / 2) else 0)

/-- `haversineDistance` (wikipedia.ts lines 182-191): great-circle
distance in km with Earth radius 6371 km. -/
noncomputable def haversineDistance (lat1 lon1 lat2 lon2 : ℝ) : ℝ :=
  let R : ℝ := 6371
  let dLat := deg2rad (lat2 - lat1)
  let dLon := deg2rad (lon2 - lon1)
  let a := Real.sin (dLat / 2) * Real.sin (dLat / 2) +
    Real.cos (deg2rad lat1) * Real.cos (deg2rad lat2) *
      Real.sin (dLon / 2) * Real.sin (dLon / 2)
  let c := 2 * atan2 (Real.sqrt a) (Real.sqrt (1 - a))
  R * c

/-- The geosearch centre computed by `fetchLandmarks`
(wikipedia.ts lines 23-24). -/
noncomputable def geosearchCenter (north south east west : ℝ) : ℝ × ℝ :=
  ((north + south) / 2, (east + west) / 2)

/-- The geosearch radius computed by `fetchLandmarks`
(wikipedia.ts lines 27-33), in meters. -/
noncomputable def geosearchRadius (north south east west : ℝ) : ℝ :=
  let centerLat := (north + south) / 2
  let centerLon := (east + west) / 2
  min
    (max (haversineDistance centerLat centerLon north centerLon)
         (haversineDistance centerLat centerLon centerLat east) * 1000)
    10000

/-- Modelled from the spec wording of the claim: centre
`((north+south)/2, (east+west)/2)` and radius
`min(max(haversine(center, (north, centerLon)), haversine(center,
(centerLat, east))) * 1000, 10000)`. -/
noncomputable def geosearchRadiusSpec (north south east west : ℝ) : ℝ :=
  min
    (max (haversineDistance ((north + south) / 2) ((east + west) / 2)
            north ((east + west) / 2))
         (haversineDistance ((north + south) / 2) ((east + west) / 2)
            ((north + south) / 2) east) * 1000)
    10000

/-! ## Store lemmas -/

/-- After `Map.set`, `Map.get` at the written key returns the new entry. -/
theorem mapGet_mapSet_self {α : Type} (st : CacheState α) (e : CacheEntry α) :
    mapGet (mapSet st e) e.key = some e := by
  induction st with
  | nil => simp [mapSet, mapGet]
  | cons x xs ih =>
    by_cases h : x.key = e.key
    · simp [mapSet, h, mapGet]
    · simp [mapSet, h, mapGet, ih]

/-- Membership after a sweep: exactly the unexpired entries remain. -/
theorem mem_clearExpiredCache {α : Type} (st : CacheState α) (now : Int)
    (e : CacheEntry α) :
    e ∈ clearExpiredCache st now ↔ e ∈ st ∧ ¬ e.expires < now := by
  induction st with
  | nil => simp [clearExpiredCache]
  | cons x xs ih =>
    by_cases h : x.expires < now
    · simp only [clearExpiredCache, if_pos h, ih, List.mem_cons]
      constructor
      · exact fun hm => ⟨Or.inr hm.1, hm.2⟩
      · rintro ⟨hm | hm, he⟩
        · exact absurd h (hm ▸ he)
        · exact ⟨hm, he⟩
    · simp only [clearExpiredCache, if_neg h, List.mem_cons, ih]
      constructor
      · rintro (rfl | hm)
        · exact ⟨Or.inl rfl, h⟩
        · exact ⟨Or.inr hm.1, hm.2⟩
      · rintro ⟨rfl | hm, he⟩
        · exact Or.inl rfl
        · exact Or.inr ⟨hm, he⟩

/-- A sweep only deletes entries, preserving the order of the rest. -/
theorem clearExpiredCache_sublist {α : Type} (st : CacheState α) (now : Int) :
    (clearExpiredCache st now).Sublist st := by
  induction st with
  | nil => simp [clearExpiredCache]
  | cons x xs ih =>
    by_cases h : x.expires < now
    · rw [clearExpiredCache, if_pos h]
      exact ih.cons x
    · rw [clearExpiredCache, if_neg h]
      exact ih.cons₂ x

/-- Sweeping twice at the same instant changes nothing the second time. -/
theorem clearExpiredCache_idem {α : Type} (st : CacheState α) (now : Int) :
    clearExpiredCache (clearExpiredCache st now) now = clearExpiredCache st now := by
  induction st with
  | nil => rfl
  | cons x xs ih =>
    by_cases h : x.expires < now
    · rw [clearExpiredCache, if_pos h, ih]
    · rw [clearExpiredCache, if_neg h, clearExpiredCache, if_neg h, ih]

/-! ## Claim C2 — read-path expiry boundary -/

/-- Claim C2, counterexample: on an empty store, `put("k", 7, 5)` at
`now = 0` succeeds, and `get("k")` at the exact instant `now = 5 = expiresAt`
returns the stored value, not absent — the read path expires entries only
when `expires < now` holds strictly. -/
theorem get_at_expiry_instant_counterexample :
    cacheData ([] : CacheState Nat) "k" 7 5 0 = .ok [⟨1, "k", 7, 5⟩] ∧
      (getCachedData ([⟨1, "k", 7, 5⟩] : CacheState Nat) "k" 5).1 = some 7 :=
  ⟨rfl, rfl⟩

/-- Claim C2 (amended): after a successful `put(k, v, now+Δ)` with `Δ > 0`,
`get(k)` returns `v` whenever `now ≤ expiresAt` — including the exact
instant `now = expiresAt` — and returns absent and evicts the entry once
`now > expiresAt`. -/
theorem get_after_put {α : Type} (st : CacheState α) (k : String) (v : α)
    (E now0 now : Int) (st1 : CacheState α)
    (hput : cacheData st k v E now0 = .ok st1) :
    (now ≤ E → (getCachedData st1 k now).1 = some v) ∧
    (E < now → getCachedData st1 k now = (none, mapDelete st1 k)) := by
  unfold cacheData at hput
  by_cases hle : E ≤ now0
  · rw [if_pos hle] at hput
    exact absurd hput (by simp)
  · rw [if_neg hle] at hput
    injection hput with h1
    have hget : mapGet st1 k = some ⟨st.length + 1, k, v, E⟩ := by
      rw [← h1]
      exact mapGet_mapSet_self st ⟨st.length + 1, k, v, E⟩
    constructor
    · intro hnow
      simp [getCachedData, hget, not_lt.mpr hnow]
    · intro hnow
      simp [getCachedData, hget, hnow]

/-- Witness for `get_after_put` at a concrete input: put at time 0 with
expiry 5, read back at times 3 and 9. -/
theorem get_after_put_witness :
    (getCachedData ([⟨1, "k", 7, 5⟩] : CacheState Nat) "k" 3).1 = some 7 ∧
      getCachedData ([⟨1, "k", 7, 5⟩] : CacheState Nat) "k" 9 =
        (none, mapDelete [⟨1, "k", 7, 5⟩] "k") :=
  ⟨(get_after_put [] "k" 7 5 0 3 [⟨1, "k", 7, 5⟩] rfl).1 (by decide),
   (get_after_put [] "k" 7 5 0 9 [⟨1, "k", 7, 5⟩] rfl).2 (by decide)⟩

/-! ## Claim C6 — put with a past expiry fails and mutates nothing -/

/-- Claim C6: `put(k, v, t)` with `t ≤ now` fails with `InvalidExpiry`
("Expiry time must be a future timestamp."), and the store is unchanged by
the failed call — the throw precedes the `Map.set`. -/
theorem put_past_expiry_fails {α : Type} (st : CacheState α) (k : String)
    (v : α) (t now : Int) (h : t ≤ now) :
    cacheData st k v t now = .error .invalidExpiry ∧
      cacheDataRun st k v t now = st := by
  refine ⟨by rw [cacheData, if_pos h], ?_⟩
  simp [cacheDataRun, cacheData, if_pos h]

/-- Witness for `put_past_expiry_fails`: `t = now = 0` on a one-entry store. -/
theorem put_past_expiry_fails_witness :
    cacheData ([⟨1, "a", 3, 9⟩] : CacheState Nat) "k" 7 0 0 = .error .invalidExpiry ∧
      cacheDataRun ([⟨1, "a", 3, 9⟩] : CacheState Nat) "k" 7 0 0 = [⟨1, "a", 3, 9⟩] :=
  put_past_expiry_fails [⟨1, "a", 3, 9⟩] "k" 7 0 0 (by decide)

/-! ## Claim C7 — the sweep removes exactly the expired entries -/

/-- Claim C7: `sweepExpired()` keeps exactly the entries with
`expiresAt ≥ now` (an entry survives the sweep iff it was present and not
expired), only deletes — preserving the order of surviving entries — and
is idempotent: an immediate second sweep at the same `now` is a no-op. -/
theorem sweep_removes_exactly_expired {α : Type} (st : CacheState α) (now : Int) :
    (∀ e : CacheEntry α, e ∈ clearExpiredCache st now ↔ e ∈ st ∧ ¬ e.expires < now) ∧
      (clearExpiredCache st now).Sublist st ∧
      clearExpiredCache (clearExpiredCache st now) now = clearExpiredCache st now :=
  ⟨mem_clearExpiredCache st now, clearExpiredCache_sublist st now,
    clearExpiredCache_idem st now⟩

/-! ## Claim C9 — freshness invariant of the store -/

/-- Claim C9: every value served by `get` comes from an entry whose
`expiresAt` is `≥ now` at the moment of the read, and every successful
insertion had `expiresAt > now` at insertion time; the store never serves
a value whose expiry is strictly in the past. -/
theorem cache_freshness_invariant {α : Type} (st : CacheState α) (k : String)
    (now : Int) :
    (∀ v, (getCachedData st k now).1 = some v →
      ∃ e : CacheEntry α, mapGet st k = some e ∧ e.value = v ∧ now ≤ e.expires) ∧
    (∀ (v : α) (E : Int) (st1 : CacheState α),
      cacheData st k v E now = .ok st1 → now < E) := by
  constructor
  · intro v hv
    unfold getCachedData at hv
    cases hm : mapGet st k with
    | none => rw [hm] at hv; simp at hv
    | some e =>
      rw [hm] at hv
      simp only [] at hv
      by_cases he : e.expires < now
      · rw [if_pos he] at hv
        exact absurd hv (by simp)
      · rw [if_neg he] at hv
        exact ⟨e, rfl, by simpa using hv, not_lt.mp he⟩
  · intro v E st1 hput
    unfold cacheData at hput
    by_cases hle : E ≤ now
    · rw [if_pos hle] at hput
      exact absurd hput (by simp)
    · exact not_le.mp hle

/-- Witness for `cache_freshness_invariant`: a hit at `now = 3` on an entry
expiring at 5 comes from that unexpired entry, and an insertion accepted at
`now = 3` with expiry 5 indeed had `now < 5`. -/
theorem cache_freshness_invariant_witness :
    (∃ e : CacheEntry Nat, mapGet ([⟨1, "k", 7, 5⟩] : CacheState Nat) "k" = some e ∧
      e.value = 7 ∧ (3 : Int) ≤ e.expires) ∧ (3 : Int) < 5 :=
  ⟨(cache_freshness_invariant ([⟨1, "k", 7, 5⟩] : CacheState Nat) "k" 3).1 7 rfl,
   (cache_freshness_invariant ([⟨1, "k", 7, 5⟩] : CacheState Nat) "k" 3).2 9 5
     [⟨2, "k", 9, 5⟩] rfl⟩

/-! ## Claim C1 — cache-key bucketing -/

/-- Claim C1, counterexample: the boxes `{50, 40, 10, -0.00001}` and
`{50, 40, 10, 0}` round to the same 4-decimal values on all four edges
(the west edges both round to the value 0), yet their cache keys differ:
`toFixed(4)` renders the tiny negative west edge as `"-0.0000"` and the
zero west edge as `"0.0000"`. -/
theorem cacheKey_negative_zero_counterexample :
    round4Value (BoundingBox.mk 50 40 10 (-(1/100000))).north =
        round4Value (BoundingBox.mk 50 40 10 0).north ∧
    round4Value (BoundingBox.mk 50 40 10 (-(1/100000))).south =
        round4Value (BoundingBox.mk 50 40 10 0).south ∧
    round4Value (BoundingBox.mk 50 40 10 (-(1/100000))).east =
        round4Value (BoundingBox.mk 50 40 10 0).east ∧
    round4Value (BoundingBox.mk 50 40 10 (-(1/100000))).west =
        round4Value (BoundingBox.mk 50 40 10 0).west ∧
    landmarksCacheKey (BoundingBox.mk 50 40 10 (-(1/100000))) ≠
        landmarksCacheKey (BoundingBox.mk 50 40 10 0) := by
  have h50 : toFixed4 (50 : ℚ) = "50.0000" := by
    rw [toFixed4_of_nonneg _ (by norm_num),
      fixedFrac_eq _ 500000 (by rw [Int.floor_eq_iff]; norm_num)]
    decide
  have h40 : toFixed4 (40 : ℚ) = "40.0000" := by
    rw [toFixed4_of_nonneg _ (by norm_num),
      fixedFrac_eq _ 400000 (by rw [Int.floor_eq_iff]; norm_num)]
    decide
  have h10 : toFixed4 (10 : ℚ) = "10.0000" := by
    rw [toFixed4_of_nonneg _ (by norm_num),
      fixedFrac_eq _ 100000 (by rw [Int.floor_eq_iff]; norm_num)]
    decide
  have hwA : toFixed4 (-(1/100000) : ℚ) = "-0.0000" := by
    rw [toFixed4_of_neg _ (by norm_num),
      fixedFrac_eq _ 0 (by rw [Int.floor_eq_iff]; norm_num)]
    decide
  have hw0 : toFixed4 (0 : ℚ) = "0.0000" := by
    rw [toFixed4_of_nonneg _ (by norm_num),
      fixedFrac_eq _ 0 (by rw [Int.floor_eq_iff]; norm_num)]
    decide
  refine ⟨rfl, rfl, rfl, ?_, ?_⟩
  · show round4Value (-(1/100000) : ℚ) = round4Value (0 : ℚ)
    rw [round4Value, round4Value, jsRound4, jsRound4,
      if_pos (by norm_num : -(1/100000 : ℚ) < 0),
      if_neg (by norm_num : ¬ (0 : ℚ) < 0),
      show Int.floor (-(-(1/100000 : ℚ)) * 10000 + 1/2) = 0 from by
        rw [Int.floor_eq_iff]; norm_num,
      show Int.floor ((0 : ℚ) * 10000 + 1/2) = 0 from by
        rw [Int.floor_eq_iff]; norm_num]
    norm_num
  · show "landmarks_" ++ toFixed4 (50 : ℚ) ++ "_" ++ toFixed4 (40 : ℚ) ++ "_" ++
        toFixed4 (10 : ℚ) ++ "_" ++ toFixed4 (-(1/100000) : ℚ) ≠
      "landmarks_" ++ toFixed4 (50 : ℚ) ++ "_" ++ toFixed4 (40 : ℚ) ++ "_" ++
        toFixed4 (10 : ℚ) ++ "_" ++ toFixed4 (0 : ℚ)
    rw [h50, h40, h10, hwA, hw0]
    decide

/-- Claim C1 (amended): two BoundingBoxes whose four edges produce
identical `toFixed(4)` renderings — same rounded 4-decimal magnitude and
same sign marker; a negative coordinate rounding to zero renders
`"-0.0000"`, distinct from `"0.0000"` — derive identical cache keys. -/
theorem cacheKey_eq_of_toFixed_eq (b1 b2 : BoundingBox)
    (hn : toFixed4 b1.north = toFixed4 b2.north)
    (hs : toFixed4 b1.south = toFixed4 b2.south)
    (he : toFixed4 b1.east = toFixed4 b2.east)
    (hw : toFixed4 b1.west = toFixed4 b2.west) :
    landmarksCacheKey b1 = landmarksCacheKey b2 := by
  rw [landmarksCacheKey, landmarksCacheKey, hn, hs, he, hw]

/-- Witness for `cacheKey_eq_of_toFixed_eq`: two distinct boxes whose east
edges 0.00005 and 0.0001 both render as `"0.0001"` get the same key. -/
theorem cacheKey_eq_of_toFixed_eq_witness :
    landmarksCacheKey (BoundingBox.mk 51 50 (1/20000) (-1)) =
      landmarksCacheKey (BoundingBox.mk 51 50 (1/10000) (-1)) :=
  cacheKey_eq_of_toFixed_eq (BoundingBox.mk 51 50 (1/20000) (-1))
    (BoundingBox.mk 51 50 (1/10000) (-1)) rfl rfl
    (by
      show toFixed4 (1/20000 : ℚ) = toFixed4 (1/10000 : ℚ)
      rw [toFixed4_of_nonneg _ (by norm_num),
        toFixed4_of_nonneg _ (by norm_num),
        fixedFrac_eq _ 1 (by rw [Int.floor_eq_iff]; norm_num),
        fixedFrac_eq _ 1 (by rw [Int.floor_eq_iff]; norm_num)])
    rfl

/-! ## Claim C3 — invalid bound ordering -/

/-- Claim C3, counterexample: a landmark query with bounds
`north = 0 < 1 = south` (all four in range, empty cache) answers HTTP 500
— `fetchLandmarks` throws "Invalid map bounds provided." and the handler's
catch-all maps it to 500, not to a 400-class status. -/
theorem landmarks_route_500_not_400_counterexample :
    (landmarksRoute 0 1 0 0 [] 0 (.ok none) (fun _ => .error ())).status = 500 ∧
      ¬(400 ≤ (landmarksRoute 0 1 0 0 [] 0 (.ok none) (fun _ => .error ())).status ∧
        (landmarksRoute 0 1 0 0 [] 0 (.ok none) (fun _ => .error ())).status < 500) := by
  have hf : fetchLandmarks 0 1 0 0 (.ok none) = (.error (), 0) := by
    rw [fetchLandmarks, if_pos (Or.inl (by norm_num))]
  have h : landmarksRoute 0 1 0 0 [] 0 (.ok none) (fun _ => .error ()) =
      ⟨500, none, [], 0⟩ := by
    rw [landmarksRoute,
      if_neg (not_not_intro (show validBounds 0 1 0 0 by
        rw [validBounds]; norm_num)),
      show getCachedData ([] : CacheState (List Landmark))
          (landmarksCacheKey ⟨0, 1, 0, 0⟩) 0 = (none, []) from rfl,
      hf]
  rw [h]
  exact ⟨rfl, by decide⟩

/-- Claim C3 (amended): a landmark query whose bounds order is invalid
(`north < south` or `east < west`) and whose derived key has no fresh cache
entry answers HTTP 500 — not a 400-class status — and issues zero upstream
calls: `fetchLandmarks` throws before its HTTP request and the handler's
catch-all answers 500. -/
theorem invalid_bounds_500_no_upstream (n s e w : ℚ)
    (st : CacheState (List Landmark)) (now : Int)
    (geo : Except Unit (Option (List WikiGeosearchResult)))
    (det : Nat → Except Unit WikiLandmarkDetails)
    (hb : n < s ∨ e < w)
    (hmiss : (getCachedData st (landmarksCacheKey ⟨n, s, e, w⟩) now).1 = none) :
    (landmarksRoute n s e w st now geo det).status = 500 ∧
      (landmarksRoute n s e w st now geo det).upstreamCalls = 0 := by
  unfold landmarksRoute
  by_cases hv : validBounds n s e w
  · rw [if_neg (not_not_intro hv)]
    have hget : getCachedData st (landmarksCacheKey ⟨n, s, e, w⟩) now =
        (none, (getCachedData st (landmarksCacheKey ⟨n, s, e, w⟩) now).2) := by
      rcases hp : getCachedData st (landmarksCacheKey ⟨n, s, e, w⟩) now with ⟨o, st2⟩
      cases o with
      | none => rfl
      | some v => rw [hp] at hmiss; exact absurd hmiss (by simp)
    rw [hget, show fetchLandmarks n s e w geo = (.error (), 0) from by
      rw [fetchLandmarks.eq_def, if_pos hb]]
    exact ⟨rfl, rfl⟩
  · rw [if_pos hv]
    exact ⟨rfl, rfl⟩

/-- Witness for `invalid_bounds_500_no_upstream` at bounds `{0, 1, 0, 0}`
on an empty cache. -/
theorem invalid_bounds_500_no_upstream_witness :
    (landmarksRoute 0 1 0 0 [] 7 (.ok none) (fun _ => .error ())).status = 500 ∧
      (landmarksRoute 0 1 0 0 [] 7 (.ok none) (fun _ => .error ())).upstreamCalls = 0 :=
  invalid_bounds_500_no_upstream 0 1 0 0 [] 7 (.ok none) (fun _ => .error ())
    (Or.inl (by norm_num)) rfl

/-! ## Claim C4 — geocode fallback chain -/

/-- Claim C4: for a non-empty geocode query, a non-empty primary result
short-circuits with its first match and the secondary source stays
uninvoked; a thrown or empty primary consults the secondary; and when the
secondary also yields no match the request fails 404. -/
theorem geocode_fallback_chain (q : String)
    (primary : Except Unit (List WikiGeosearchResult))
    (secondary : Except Unit (List NominatimHit)) (hq : 1 ≤ q.length) :
    (∀ (r : WikiGeosearchResult) (rest : List WikiGeosearchResult),
      primary = .ok (r :: rest) →
        geocodeRoute q primary secondary =
          ⟨200, some ⟨r.lat, r.lon, r.title⟩, false⟩) ∧
    ((primary = .error () ∨ primary = .ok []) →
      (geocodeRoute q primary secondary).secondaryCalled = true) ∧
    ((primary = .error () ∨ primary = .ok []) → secondary = .ok [] →
      geocodeRoute q primary secondary = ⟨404, none, true⟩) := by
  have hnot : ¬ q.length < 1 := not_lt.mpr hq
  refine ⟨?_, ?_, ?_⟩
  · rintro r rest rfl
    rw [geocodeRoute.eq_def, if_neg hnot]
  · rintro (rfl | rfl) <;>
      · rw [geocodeRoute.eq_def, if_neg hnot]
        cases secondary with
        | error e => rfl
        | ok l => cases l with | nil => rfl | cons h t => rfl
  · rintro (rfl | rfl) rfl <;> rw [geocodeRoute.eq_def, if_neg hnot]

/-- Witness for `geocode_fallback_chain`: a primary hit short-circuits
(secondary not called); a thrown primary with an empty secondary answers
404. -/
theorem geocode_fallback_chain_witness :
    geocodeRoute "Eiffel Tower"
        (.ok [⟨5, 0, "Eiffel Tower", 48, 2, 0, "true"⟩]) (.ok []) =
      ⟨200, some ⟨48, 2, "Eiffel Tower"⟩, false⟩ ∧
    geocodeRoute "Paris" (.error ()) (.ok []) = ⟨404, none, true⟩ :=
  ⟨(geocode_fallback_chain "Eiffel Tower"
      (.ok [⟨5, 0, "Eiffel Tower", 48, 2, 0, "true"⟩]) (.ok [])
      (by decide)).1 ⟨5, 0, "Eiffel Tower", 48, 2, 0, "true"⟩ [] rfl,
   (geocode_fallback_chain "Paris" (.error ()) (.ok [])
      (by decide)).2.2 (Or.inl rfl) rfl⟩

/-! ## Claim C5 — per-landmark detail fault isolation -/

/-- A detail oracle that always succeeds but returns a page without
extract or thumbnail (the source's `return { pageid: pageId, title: "" }`
path, or a page whose `extract`/`thumbnail` are absent). -/
def detNoExtract : Nat → Except Unit WikiLandmarkDetails :=
  fun p => .ok ⟨p, "", none, none⟩

/-- A one-landmark geosearch result list. -/
def rsTower : List WikiGeosearchResult :=
  [⟨11, 0, "Tower", 10, 20, 0, "true"⟩]

/-- Claim C5, counterexample to "precisely": the single landmark's detail
fetch succeeds (it is not an error), yet the returned entry still lacks
`description` and `thumbnail`, because the upstream page carries no extract
or thumbnail.  Lacking the detail fields is therefore not equivalent to
the detail fetch having failed. -/
theorem detail_success_without_extract_counterexample :
    detNoExtract 11 = .ok ⟨11, "", none, none⟩ ∧
      (withDetails detNoExtract (rsTower.map toLandmark)).map
        (fun l => (l.description, l.thumbnail)) = [(none, none)] :=
  ⟨rfl, rfl⟩

/-- Claim C5 (amended): detail-fetch failures never fail the batch — the
returned list keeps exactly `n` entries in upstream order, every entry
keeps its `pageid`, `title`, `lat` and `lon`, and every landmark whose
detail fetch failed lacks `description` and `thumbnail`.  (A landmark
whose detail fetch succeeded may lack them too, when the upstream page has
no extract or thumbnail.) -/
theorem landmark_details_fault_isolation (rs : List WikiGeosearchResult)
    (det : Nat → Except Unit WikiLandmarkDetails) :
    (withDetails det (rs.map toLandmark)).length = rs.length ∧
    ∀ (i : Nat) (hi : i < rs.length)
      (hi2 : i < (withDetails det (rs.map toLandmark)).length),
      ((withDetails det (rs.map toLandmark)).get ⟨i, hi2⟩).pageid =
          (rs.get ⟨i, hi⟩).pageid ∧
      ((withDetails det (rs.map toLandmark)).get ⟨i, hi2⟩).title =
          (rs.get ⟨i, hi⟩).title ∧
      ((withDetails det (rs.map toLandmark)).get ⟨i, hi2⟩).lat =
          (rs.get ⟨i, hi⟩).lat ∧
      ((withDetails det (rs.map toLandmark)).get ⟨i, hi2⟩).lon =
          (rs.get ⟨i, hi⟩).lon ∧
      (det (rs.get ⟨i, hi⟩).pageid = .error () →
        ((withDetails det (rs.map toLandmark)).get ⟨i, hi2⟩).description = none ∧
        ((withDetails det (rs.map toLandmark)).get ⟨i, hi2⟩).thumbnail = none) := by
  refine ⟨by simp [withDetails], ?_⟩
  intro i hi hi2
  have hget : (withDetails det (rs.map toLandmark)).get ⟨i, hi2⟩ =
      applyDetails det (toLandmark (rs.get ⟨i, hi⟩)) := by
    simp [withDetails, List.getElem_map]
  rw [hget]
  cases hdet : det (rs.get ⟨i, hi⟩).pageid with
  | ok d =>
    refine ⟨?_, ?_, ?_, ?_, fun hfail => absurd hfail (by simp)⟩ <;>
      simp only [applyDetails, toLandmark, hdet]
  | error u =>
    refine ⟨?_, ?_, ?_, ?_, fun hfail => ?_⟩ <;>
      simp only [applyDetails, toLandmark, hdet, and_self]

/-- A three-landmark result list. -/
def rsThree : List WikiGeosearchResult :=
  [⟨11, 0, "A", 1, 2, 0, "true"⟩, ⟨22, 0, "B", 3, 4, 100, "true"⟩,
   ⟨33, 0, "C", 5, 6, 200, "true"⟩]

/-- A detail oracle failing exactly for pageid 22. -/
def detSecondFails : Nat → Except Unit WikiLandmarkDetails :=
  fun p => if p = 22 then .error ()
    else .ok ⟨p, "page", some "text", some ⟨"img", 500, 300⟩⟩

/-- Witness for `landmark_details_fault_isolation`: with three landmarks
and the detail fetch failing for the middle one, the batch still has 3
entries and the middle entry lacks both detail fields. -/
theorem landmark_details_fault_isolation_witness :
    (withDetails detSecondFails (rsThree.map toLandmark)).length = 3 ∧
      ((withDetails detSecondFails (rsThree.map toLandmark)).get
          ⟨1, by decide⟩).description = none ∧
      ((withDetails detSecondFails (rsThree.map toLandmark)).get
          ⟨1, by decide⟩).thumbnail = none :=
  ⟨(landmark_details_fault_isolation rsThree detSecondFails).1,
   ((landmark_details_fault_isolation rsThree detSecondFails).2 1
      (by decide) (by decide)).2.2.2.2 rfl⟩

/-! ## Claim C10 — whitespace-only geocode queries -/

/-- Dropping a prefix-test that holds everywhere empties the list. -/
theorem dropWhile_eq_nil_of_all {α : Type} (p : α → Bool) (l : List α)
    (h : ∀ c ∈ l, p c = true) : l.dropWhile p = [] := by
  induction l with
  | nil => rfl
  | cons x xs ih =>
    rw [List.dropWhile_cons, if_pos (h x (List.mem_cons_self x xs))]
    exact ih (fun c hc => h c (List.mem_cons_of_mem x hc))

/-- A string of whitespace characters trims to the empty string. -/
theorem jsTrim_eq_empty (s : String) (h : ∀ c ∈ s.data, jsWhitespace c = true) :
    jsTrim s = "" := by
  rw [jsTrim, dropWhile_eq_nil_of_all jsWhitespace s.data h]
  rfl

/-- Claim C10: a non-empty, whitespace-only geocode query passes the
route's input validation (`z.string().min(1)` counts raw characters), the
primary search then throws — its own guard rejects blank queries instead
of returning an empty list — the error is swallowed, and the secondary
source is consulted. -/
theorem whitespace_query_fallback (q : String)
    (searchResp : Except Unit (List WikiSearchHit))
    (coordResp : Nat → Except Unit (Option (WikiCoord × String)))
    (secondary : Except Unit (List NominatimHit))
    (hne : q.data ≠ [])
    (hws : ∀ c ∈ q.data, jsWhitespace c = true) :
    1 ≤ q.length ∧
    searchWikipedia q searchResp coordResp = .error () ∧
    (geocodeRouteFull q searchResp coordResp secondary).secondaryCalled = true := by
  have hlen : 1 ≤ q.length := by
    have h0 : q.data.length ≠ 0 := fun h0 => hne (List.length_eq_zero.mp h0)
    exact Nat.pos_of_ne_zero h0
  have htrim : jsTrim q = "" := jsTrim_eq_empty q hws
  have hsw : searchWikipedia q searchResp coordResp = .error () := by
    rw [searchWikipedia.eq_def, if_pos (Or.inr (by rw [htrim]; rfl))]
  refine ⟨hlen, hsw, ?_⟩
  rw [geocodeRouteFull, hsw, geocodeRoute.eq_def, if_neg (not_lt.mpr hlen)]
  cases secondary with
  | error e => rfl
  | ok l => cases l with | nil => rfl | cons h t => rfl

/-- Witness for `whitespace_query_fallback`: the query `" "` with a
non-empty text-search oracle and a non-empty Nominatim oracle. -/
theorem whitespace_query_fallback_witness :
    1 ≤ " ".length ∧
    searchWikipedia " " (.ok [⟨3⟩]) (fun _ => .ok none) = .error () ∧
    (geocodeRouteFull " " (.ok [⟨3⟩]) (fun _ => .ok none)
        (.ok [⟨1, 2, "x"⟩])).secondaryCalled = true :=
  whitespace_query_fallback " " (.ok [⟨3⟩]) (fun _ => .ok none)
    (.ok [⟨1, 2, "x"⟩]) (by decide) (by decide)

/-! ## Claim C8 — geosearch centre and radius -/

/-- Claim C8: the landmark search client centres its geosearch on
`((north+south)/2, (east+west)/2)` and uses the radius
`min(max(haversine(center, (north, centerLon)), haversine(center,
(centerLat, east))) * 1000, 10000)` meters, the Haversine distance using
Earth radius 6371 km. -/
theorem geosearch_center_radius_formula (north south east west : ℝ) :
    geosearchCenter north south east west =
      ((north + south) / 2, (east + west) / 2) ∧
    geosearchRadius north south east west =
      geosearchRadiusSpec north south east west :=
  ⟨rfl, rfl⟩
